import Mathlib

/-!
# discordgo-lipstick: a shallow embedding of the bot layer

The Go package `bot` (src/bot/bot.go) is embedded as pure Lean functions.

* Go `error` values are the inductive `GoError`; `nil` is `Option.none`.
* A Go `map[string]V` is an association list `GoMap V` with unique keys.
* Pointers to SDK structs are the structs themselves (callers pass non-nil
  pointers); a slice is a `List`.
* A Go panic is the `Except.error` / `Outcome.panicked` branch.
* Every call into the discordgo session is recorded in a trace of `Event`s;
  the answer of the SDK to a call is supplied by an environment `Env` that may
  depend on everything that happened before.
-/

namespace Lipstick

/-! ## Errors -/

/-- Go error values: `errors.New`, `fmt.Errorf` with one `%w` verb, `errors.Join` of two
non-nil errors. -/
inductive GoError where
  | new (text : String)
  | wrapf (inner : GoError) (suffix : String)
  | join (first second : GoError)
  deriving DecidableEq, Repr

/-- The `Error()` method. -/
def GoError.Error : GoError → String
  | .new text => text
  | .wrapf inner suffix => inner.Error ++ suffix
  | .join first second => first.Error ++ "\n" ++ second.Error

/-- The function `errors.Is`: the error itself, or anything reachable through `Unwrap`. -/
def errorsIs : GoError → GoError → Bool
  | .new text, target => decide (GoError.new text = target)
  | .wrapf inner suffix, target =>
      decide (GoError.wrapf inner suffix = target) || errorsIs inner target
  | .join first second, target =>
      decide (GoError.join first second = target) || errorsIs first target
        || errorsIs second target

def ErrConfig : GoError := .new "configuration error"
def ErrCommandInvalid : GoError := .new "command invalid"
def ErrSession : GoError := .new "failed to start session"
def ErrCommandSend : GoError := .new "failed to send response"
def ErrCommandExec : GoError := .new "could not complete command"
def ErrCommandDuplicate : GoError := .new "duplicate command"

/-- The value carried by a Go panic. -/
inductive Panic where
  | error (err : GoError)
  | nilPointerDereference
  | notApplicationCommand
  deriving DecidableEq, Repr

/-! ## Go maps -/

/-- A Go `map[string]V`: association list, at most one entry per key. -/
abbrev GoMap (V : Type) := List (String × V)

/-- The lookup `m[key]` in its two-result form `v, found := m[key]`. -/
def GoMap.get {V : Type} (m : GoMap V) (key : String) : Option V :=
  m.lookup key

/-- The assignment `m[key] = v`. -/
def GoMap.set {V : Type} (m : GoMap V) (key : String) (v : V) : GoMap V :=
  (key, v) :: m.filter (fun entry => !(entry.1 == key))

/-- The keys of the map. -/
def GoMap.keys {V : Type} (m : GoMap V) : List String :=
  m.map Prod.fst

/-! ## SDK data -/

structure ApplicationCommand where
  ID : String
  Name : String
  Description : String
  deriving DecidableEq, Repr

structure MessageEmbed where
  Title : String
  Description : String
  deriving DecidableEq, Repr

/-- An interaction event. `commandName` is `interaction.ApplicationCommandData().Name`;
it is `none` when that SDK accessor panics (the interaction is not an application command). -/
structure InteractionCreate where
  ID : String
  commandName : Option String
  deriving DecidableEq, Repr

inductive InteractionResponseType where
  | InteractionResponsePong
  | InteractionResponseChannelMessageWithSource
  | InteractionResponseDeferredChannelMessageWithSource
  | InteractionResponseDeferredMessageUpdate
  | InteractionResponseUpdateMessage
  deriving DecidableEq, Repr

structure InteractionResponseData where
  Content : String
  Embeds : List MessageEmbed
  deriving DecidableEq, Repr

structure InteractionResponse where
  RespType : InteractionResponseType
  Data : InteractionResponseData
  deriving DecidableEq, Repr

structure WebhookParams where
  Content : String
  Embeds : List MessageEmbed
  deriving DecidableEq, Repr

structure WebhookEdit where
  Embeds : Option (List MessageEmbed)
  deriving DecidableEq, Repr

/-- The event handlers `New` attaches to the session. -/
inductive SessionHandler where
  | onReady
  | onConnect
  | onDisconnect
  | onInteractionCreate
  deriving DecidableEq, Repr

/-- The part of `discordgo.Session` that `New` touches. -/
structure Session where
  Token : String
  UserAgent : String
  Intents : Nat
  handlers : List SessionHandler
  deriving DecidableEq, Repr

def IntentGuildMembers : Nat := 1 <<< 1
def IntentsGuildMessages : Nat := 1 <<< 9
def IntentMessageContent : Nat := 1 <<< 15

/-- Session.AddHandler. -/
def Session.AddHandler (s : Session) (h : SessionHandler) : Session :=
  { s with handlers := s.handlers ++ [h] }

/-- A slash-command handler: the embed and the error it returns for an interaction. -/
abbrev Handler := InteractionCreate → Option MessageEmbed × Option GoError

/-! ## Calls into the SDK session and what is observed of a run -/

inductive SdkCall where
  | sessionOpen
  | sessionClose
  | ApplicationCommandDelete (appID guildID cmdID : String)
  | ApplicationCommandBulkOverwrite (appID guildID : String) (commands : List ApplicationCommand)
  | InteractionRespond (interaction : InteractionCreate) (resp : InteractionResponse)
  | FollowupMessageCreate (interaction : InteractionCreate) (wait : Bool) (data : WebhookParams)
  | InteractionResponseEdit (interaction : InteractionCreate) (edit : WebhookEdit)
  deriving DecidableEq, Repr

inductive Event where
  | sdk (call : SdkCall) (result : Option GoError)
  | handler (h : Handler) (interaction : InteractionCreate)
  | log (level msg : String) (attrs : List (String × String))

/-- The SDK as seen from the bot: the error each call returns, and the commands a successful
bulk overwrite returns, both as functions of the history so far. -/
structure Env where
  result : List Event → SdkCall → Option GoError
  overwritten : List Event → List ApplicationCommand → List ApplicationCommand

/-- Perform one SDK call: ask the environment, record call and answer. -/
def Env.call (env : Env) (tr : List Event) (c : SdkCall) : List Event × Option GoError :=
  (tr ++ [Event.sdk c (env.result tr c)], env.result tr c)

/-- The SDK calls of a trace, in order. -/
def sdkCalls : List Event → List SdkCall
  | [] => []
  | Event.sdk c _ :: rest => c :: sdkCalls rest
  | _ :: rest => sdkCalls rest

/-- How a function that may panic ended. -/
inductive Outcome where
  | returned
  | panicked (p : Panic)
  deriving DecidableEq, Repr

/-! ## The bot -/

structure Opts where
  Token : String
  AppID : String
  GuildID : String
  UnregisterOnClose : Bool
  UserAgent : String
  deriving DecidableEq, Repr

structure Bot where
  appID : String
  guildID : String
  session : Session
  commandHandlers : GoMap Handler
  commands : List ApplicationCommand
  running : Bool
  registeredCommands : List ApplicationCommand
  unregister : Bool

/-- New (bot.go 40-79). `sdkNew` is the SDK constructor `discordgo.New`. -/
def New (sdkNew : String → Except GoError Session) (opts : Opts) : Except GoError Bot :=
  if opts.AppID = "" then
    .error (.wrapf ErrConfig ": invalid discord app id")
  else if opts.Token = "" then
    .error (.wrapf ErrConfig ": invalid discord token")
  else
    match sdkNew ("Bot " ++ opts.Token) with
    | .error errSession => .error (.join errSession ErrConfig)
    | .ok session =>
      let session := { session with
        UserAgent :=
          if opts.UserAgent ≠ "" then opts.UserAgent
          else "discordgo-lipstick (https://github.com/leighmacdonald/discordgo-lipstick)" }
      let session := { session with Intents := session.Intents ||| IntentsGuildMessages }
      let session := { session with Intents := session.Intents ||| IntentMessageContent }
      let session := { session with Intents := session.Intents ||| IntentGuildMembers }
      let session := session.AddHandler .onReady
      let session := session.AddHandler .onConnect
      let session := session.AddHandler .onDisconnect
      let session := session.AddHandler .onInteractionCreate
      .ok { appID := opts.AppID
            guildID := opts.GuildID
            unregister := opts.UnregisterOnClose
            commandHandlers := []
            commands := []
            running := false
            registeredCommands := []
            session := session }

/-- MustRegisterHandler (bot.go 127-140). The error branch is the panic and its value. -/
def MustRegisterHandler (b : Bot) (cmd : String) (appCommand : ApplicationCommand)
    (handler : Handler) : Except Panic Bot :=
  if (b.commandHandlers.get cmd).isSome then
    .error (.error ErrCommandDuplicate)
  else if b.commands.any (fun c => c.Name == appCommand.Name) then
    .error (.error ErrCommandDuplicate)
  else
    .ok { b with
          commandHandlers := b.commandHandlers.set cmd handler
          commands := b.commands ++ [appCommand] }

/-- One registration attempt by a caller that recovers from the panic: the bot afterwards. -/
def registerCall (b : Bot) (call : String × ApplicationCommand × Handler) : Bot :=
  match MustRegisterHandler b call.1 call.2.1 call.2.2 with
  | .ok b' => b'
  | .error _ => b

/-- Start (bot.go 92-104): the bot afterwards, the trace, the returned error. -/
def Start (env : Env) (b : Bot) (tr : List Event) : Bot × List Event × Option GoError :=
  if b.running then
    (b, tr, none)
  else
    let b := { b with running := true }
    match env.call tr .sessionOpen with
    | (tr, some errStart) => (b, tr, some (.join errStart ErrSession))
    | (tr, none) => (b, tr, none)

/-- A run of `n` sequential `Start` calls: the bot, the trace and the results in call order. -/
def startCalls (env : Env) : Nat → Bot → List Event → Bot × List Event × List (Option GoError)
  | 0, b, tr => (b, tr, [])
  | n + 1, b, tr =>
    match Start env b tr with
    | (b, tr, r) =>
      match startCalls env n b tr with
      | (b, tr, rs) => (b, tr, r :: rs)

/-- The loop body of `Close`: delete one command, log a failure. -/
def closeStep (env : Env) (b : Bot) (tr : List Event) (cmd : ApplicationCommand) : List Event :=
  match env.call tr (.ApplicationCommandDelete b.appID b.guildID cmd.ID) with
  | (tr, some err) =>
    tr ++ [Event.log "ERROR" "Could not unregister command"
             [("error", err.Error), ("name", cmd.Name)]]
  | (tr, none) => tr

/-- Close (bot.go 106-118): the trace afterwards. -/
def Close (env : Env) (b : Bot) (tr : List Event) : List Event :=
  let tr := if b.unregister then b.registeredCommands.foldl (closeStep env b) tr else tr
  match env.call tr .sessionClose with
  | (tr, some err) =>
    tr ++ [Event.log "ERROR" "failed to close discord session cleanly" [("error", err.Error)]]
  | (tr, none) => tr

/-- The method sendInteractionResponse (bot.go 198-218). -/
def sendInteractionResponse (env : Env) (tr : List Event) (interaction : InteractionCreate)
    (response : MessageEmbed) : List Event × Option GoError :=
  let resp : InteractionResponseData := { Content := "", Embeds := [response] }
  match env.call tr (.InteractionResponseEdit interaction { Embeds := some resp.Embeds }) with
  | (tr, some errResponseErr) =>
    match env.call tr (.FollowupMessageCreate interaction true
        { Content := "Something went wrong: " ++ errResponseErr.Error, Embeds := [] }) with
    | (tr, some errResp) => (tr, some (.join errResp ErrCommandSend))
    | (tr, none) => (tr, none)
  | (tr, none) => (tr, none)

/-- The deferred response sent before a handler runs. -/
def initialResponse : InteractionResponse :=
  { RespType := .InteractionResponseDeferredChannelMessageWithSource
    Data := { Content := "Calculating numberwang...", Embeds := [] } }

/-- The log line written when a follow-up carrying an error cannot be sent. -/
def logFollowFailed (errFollow : GoError) : Event :=
  Event.log "ERROR" "Failed sending error response for interaction" [("error", errFollow.Error)]

/-- The handler onInteractionCreate (bot.go 151-196): the trace afterwards and whether it
returned. The 30 second context deadline handed to the handler is not part of the model. -/
def onInteractionCreate (env : Env) (b : Bot) (interaction : InteractionCreate)
    (tr : List Event) : List Event × Outcome :=
  match interaction.commandName with
  | none => (tr, .panicked .notApplicationCommand)
  | some command =>
    match b.commandHandlers.get command with
    | none => (tr, .returned)
    | some handler =>
      match env.call tr (.InteractionRespond interaction initialResponse) with
      | (tr, some errRespond) =>
        match env.call tr (.FollowupMessageCreate interaction true
            { Content := errRespond.Error, Embeds := [] }) with
        | (tr, some errFollow) => (tr ++ [logFollowFailed errFollow], .returned)
        | (tr, none) => (tr, .returned)
      | (tr, none) =>
        let tr := tr ++ [Event.handler handler interaction]
        match handler interaction with
        | (_, some errHandleCommand) =>
          -- errHandleCommand != nil
          match env.call tr (.FollowupMessageCreate interaction true
              { Content := ""
                Embeds := [{ Title := "Error", Description := errHandleCommand.Error }] }) with
          | (tr, some errFollow) => (tr ++ [logFollowFailed errFollow], .returned)
          | (tr, none) => (tr, .returned)
        | (none, none) =>
          -- response == nil: the argument errHandleCommand.Error() is evaluated on a nil error
          (tr, .panicked .nilPointerDereference)
        | (some response, none) =>
          match sendInteractionResponse env tr interaction response with
          | (tr, some sendSendResponse) =>
            (tr ++ [Event.log "ERROR" "Failed sending success response for interaction"
                      [("error", sendSendResponse.Error)]], .returned)
          | (tr, none) => (tr, .returned)

/-- The method overwriteCommands (bot.go 228-238). -/
def overwriteCommands (env : Env) (b : Bot) (tr : List Event) :
    Bot × List Event × Option GoError :=
  match env.call tr (.ApplicationCommandBulkOverwrite b.appID b.guildID b.commands) with
  | (tr', some errBulk) => (b, tr', some (.join errBulk ErrCommandInvalid))
  | (tr', none) => ({ b with registeredCommands := env.overwritten tr b.commands }, tr', none)

/-! ## Command options -/

/-- The dynamically typed `Value` of an option. -/
inductive OptionValue where
  | none
  | str (s : String)
  | int (n : Int)
  | bool (b : Bool)

/-- The recursive SDK type ApplicationCommandInteractionDataOption. -/
inductive ApplicationCommandInteractionDataOption where
  | mk (Name : String) (Value : OptionValue)
      (Options : List ApplicationCommandInteractionDataOption)

def ApplicationCommandInteractionDataOption.Name :
    ApplicationCommandInteractionDataOption → String
  | .mk name _ _ => name

def ApplicationCommandInteractionDataOption.Value :
    ApplicationCommandInteractionDataOption → OptionValue
  | .mk _ value _ => value

def ApplicationCommandInteractionDataOption.Options :
    ApplicationCommandInteractionDataOption → List ApplicationCommandInteractionDataOption
  | .mk _ _ options => options

abbrev CommandOptions := GoMap ApplicationCommandInteractionDataOption

/-- OptionMap (bot.go 244-251). -/
def OptionMap (options : List ApplicationCommandInteractionDataOption) : CommandOptions :=
  options.foldl (fun optionM opt => GoMap.set optionM opt.Name opt) []

/-- CommandOptions.String (bot.go 253-265). -/
def CommandOptions.String (opts : CommandOptions) (key : String) : String :=
  match GoMap.get opts key with
  | none => ""
  | some root =>
    match root.Value with
    | .str val => val
    | _ => ""

/-! ## Concrete data: the repository's example (bot_test.go 13-47) and variations -/

/-- An SDK constructor that succeeds. -/
def exampleSdkNew (token : String) : Except GoError Session :=
  .ok { Token := token, UserAgent := "", Intents := 0, handlers := [] }

/-- An SDK on which every call succeeds. -/
def exampleEnv : Env :=
  { result := fun _ _ => none, overwritten := fun _ commands => commands }

/-- An SDK on which every call fails. -/
def failingEnv : Env :=
  { result := fun _ _ => some (.new "HTTP 500"), overwritten := fun _ commands => commands }

def exampleOpts : Opts :=
  { Token := "token", AppID := "app", GuildID := "guild", UnregisterOnClose := true,
    UserAgent := "" }

def helloCommand : ApplicationCommand :=
  { ID := "", Name := "hello", Description := "Example command" }

def helloHandler : Handler :=
  fun _ => (some { Title := "It worked!", Description := "World" }, none)

/-- A handler that returns neither an embed nor an error. -/
def emptyHandler : Handler :=
  fun _ => (none, none)

def helloInteraction : InteractionCreate :=
  { ID := "1", commandName := some "hello" }

/-- The bot `New exampleSdkNew exampleOpts` returns. -/
def exampleBot : Bot :=
  { appID := "app"
    guildID := "guild"
    session :=
      { Token := "Bot token"
        UserAgent := "discordgo-lipstick (https://github.com/leighmacdonald/discordgo-lipstick)"
        Intents := 33282
        handlers := [.onReady, .onConnect, .onDisconnect, .onInteractionCreate] }
    commandHandlers := []
    commands := []
    running := false
    registeredCommands := []
    unregister := true }

/-- A command whose Name differs from the key its handler is registered under. -/
def worldCommand : ApplicationCommand :=
  { ID := "", Name := "world", Description := "Example command" }

def worldInteraction : InteractionCreate :=
  { ID := "2", commandName := some "world" }

/-- A subcommand option carrying one nested option. -/
def nestedOption : ApplicationCommandInteractionDataOption :=
  .mk "user" (.str "bob") []

def subcommandOption : ApplicationCommandInteractionDataOption :=
  .mk "ban" .none [nestedOption]

/-! ## Lemmas on maps and errors -/

theorem GoMap.get_isSome_iff {V : Type} (m : GoMap V) (key : String) :
    (m.get key).isSome = true ↔ key ∈ m.keys := by
  induction m with
  | nil => simp [GoMap.get, GoMap.keys]
  | cons entry rest ih =>
    obtain ⟨k, v⟩ := entry
    by_cases hk : key = k
    · subst hk
      simp [GoMap.get, GoMap.keys, List.lookup]
    · have hne : (key == k) = false := by simpa using hk
      simp only [GoMap.get, GoMap.keys, List.lookup, hne, List.map_cons, List.mem_cons] at ih ⊢
      rw [ih]
      simp [hk]

theorem GoMap.get_set {V : Type} (m : GoMap V) (key : String) (v : V) (key' : String) :
    (m.set key v).get key' = if key' = key then some v else m.get key' := by
  by_cases hk : key' = key
  · subst hk
    simp [GoMap.get, GoMap.set, List.lookup]
  · have hne : (key' == key) = false := by simpa using hk
    simp only [GoMap.get, GoMap.set, List.lookup, hne, if_neg hk]
    induction m with
    | nil => simp
    | cons entry rest ih =>
      obtain ⟨k, w⟩ := entry
      by_cases hkk : k = key
      · subst hkk
        simp [List.filter, List.lookup, hne, ih]
      · have hne2 : (k == key) = false := by simpa using hkk
        simp only [List.filter, hne2, Bool.not_false, List.lookup]
        cases hq : (key' == k) <;> simp [ih]

theorem errorsIs_self (e : GoError) : errorsIs e e = true := by
  cases e <;> simp [errorsIs]

/-- A registration attempt leaves the queued names pairwise distinct. -/
theorem registerCall_pairwise (b : Bot) (call : String × ApplicationCommand × Handler)
    (h : b.commands.Pairwise (fun c d => c.Name ≠ d.Name)) :
    (registerCall b call).commands.Pairwise (fun c d => c.Name ≠ d.Name) := by
  unfold registerCall MustRegisterHandler
  split_ifs with h1 h2
  · exact h
  · exact h
  · simp only [List.pairwise_append, List.pairwise_cons, List.Pairwise.nil, List.mem_singleton]
    refine ⟨h, ⟨by simp, trivial⟩, ?_⟩
    intro c hc d hd
    subst hd
    intro heq
    apply h2
    simp only [List.any_eq_true, beq_iff_eq]
    exact ⟨c, hc, heq⟩

theorem foldl_registerCall_pairwise (calls : List (String × ApplicationCommand × Handler))
    (b : Bot) (h : b.commands.Pairwise (fun c d => c.Name ≠ d.Name)) :
    (calls.foldl registerCall b).commands.Pairwise (fun c d => c.Name ≠ d.Name) := by
  induction calls generalizing b with
  | nil => exact h
  | cons call rest ih => exact ih _ (registerCall_pairwise b call h)

theorem New_ok_fields (sdkNew : String → Except GoError Session) (opts : Opts) (b : Bot)
    (h : New sdkNew opts = .ok b) :
    b.appID = opts.AppID ∧ b.guildID = opts.GuildID ∧ b.unregister = opts.UnregisterOnClose ∧
      b.commandHandlers = [] ∧ b.commands = [] ∧ b.running = false ∧
      b.registeredCommands = [] := by
  unfold New at h
  by_cases h1 : opts.AppID = ""
  · simp [h1] at h
  · by_cases h2 : opts.Token = ""
    · simp [h1, h2] at h
    · simp only [if_neg h1, if_neg h2] at h
      cases hs : sdkNew ("Bot " ++ opts.Token) with
      | error e => simp [hs] at h
      | ok s =>
        simp only [hs, Except.ok.injEq] at h
        subst h
        simp

theorem sdkCalls_append (xs ys : List Event) : sdkCalls (xs ++ ys) = sdkCalls xs ++ sdkCalls ys := by
  induction xs with
  | nil => rfl
  | cons x rest ih => cases x <;> simp [sdkCalls, ih]

theorem sdkCalls_closeStep (env : Env) (b : Bot) (tr : List Event) (cmd : ApplicationCommand) :
    sdkCalls (closeStep env b tr cmd) =
      sdkCalls tr ++ [SdkCall.ApplicationCommandDelete b.appID b.guildID cmd.ID] := by
  unfold closeStep Env.call
  cases env.result tr (.ApplicationCommandDelete b.appID b.guildID cmd.ID) <;>
    simp [sdkCalls_append, sdkCalls]

theorem sdkCalls_closeLoop (env : Env) (b : Bot) (cmds : List ApplicationCommand)
    (tr : List Event) :
    sdkCalls (cmds.foldl (closeStep env b) tr) =
      sdkCalls tr ++ cmds.map (fun cmd => SdkCall.ApplicationCommandDelete b.appID b.guildID cmd.ID) := by
  induction cmds generalizing tr with
  | nil => simp
  | cons cmd rest ih => simp [List.foldl, ih, sdkCalls_closeStep]

/-- Once the flag is set, Start calls change nothing and return nil. -/
theorem startCalls_running (env : Env) (n : Nat) (b : Bot) (tr : List Event)
    (h : b.running = true) : startCalls env n b tr = (b, tr, List.replicate n none) := by
  induction n with
  | zero => rfl
  | succ n ih => simp [startCalls, Start, h, ih, List.replicate_succ]

/-- A handler stays in the map, under its key, through later registration attempts. -/
theorem registerCall_get (b : Bot) (call : String × ApplicationCommand × Handler)
    (key : String) (h : Handler) (hget : b.commandHandlers.get key = some h) :
    (registerCall b call).commandHandlers.get key = some h := by
  unfold registerCall MustRegisterHandler
  split_ifs with h1 h2
  · exact hget
  · exact hget
  · simp only [GoMap.get_set]
    have hne : key ≠ call.1 := by
      intro heq
      apply h1
      rw [← heq, hget]
      rfl
    rw [if_neg hne]
    exact hget

theorem foldl_registerCall_get (calls : List (String × ApplicationCommand × Handler))
    (b : Bot) (key : String) (h : Handler) (hget : b.commandHandlers.get key = some h) :
    (calls.foldl registerCall b).commandHandlers.get key = some h := by
  induction calls generalizing b with
  | nil => exact hget
  | cons call rest ih => exact ih _ (registerCall_get b call key h hget)

/-- What onInteractionCreate does once the handler is known and the deferred response went
out: the handler is the next event. -/
theorem onInteractionCreate_invokes (env : Env) (b : Bot) (i : InteractionCreate)
    (tr : List Event) (command : String) (h : Handler)
    (hname : i.commandName = some command) (hget : b.commandHandlers.get command = some h)
    (hresp : env.result tr (.InteractionRespond i initialResponse) = none) :
    ∃ post, (onInteractionCreate env b i tr).1 =
      tr ++ Event.sdk (.InteractionRespond i initialResponse) none :: Event.handler h i :: post ∧
      ∀ h' j, Event.handler h' j ∉ post := by
  unfold onInteractionCreate
  simp only [hname, hget, Env.call, hresp]
  rcases hh : h i with ⟨response, err⟩
  cases err with
  | some e =>
    simp only
    split <;> rename_i heq <;> simp only [Prod.mk.injEq] at heq <;> obtain ⟨rfl, -⟩ := heq <;>
      simp [logFollowFailed]
  | none =>
    cases response with
    | none => simp
    | some r =>
      simp only [sendInteractionResponse, Env.call]
      cases env.result (tr ++ [Event.sdk (SdkCall.InteractionRespond i initialResponse) none] ++
          [Event.handler h i]) (SdkCall.InteractionResponseEdit i { Embeds := some [r] }) with
      | none => simp
      | some e1 =>
        simp only
        split <;> rename_i heq <;> revert heq <;> split <;> rename_i heq2 <;>
          simp only [Prod.mk.injEq] at heq2 <;> obtain ⟨rfl, -⟩ := heq2 <;> intro heq <;>
          simp only [Prod.mk.injEq] at heq <;> obtain ⟨rfl, -⟩ := heq <;> simp

/-- When the handler returns an error, exactly one follow-up goes out, its single embed titled
"Error", there is no InteractionResponseEdit, and the function returns. -/
theorem onInteractionCreate_handler_error (env : Env) (b : Bot) (i : InteractionCreate)
    (tr : List Event) (command : String) (h : Handler) (embed : Option MessageEmbed)
    (err : GoError)
    (hname : i.commandName = some command) (hget : b.commandHandlers.get command = some h)
    (hresp : env.result tr (.InteractionRespond i initialResponse) = none)
    (hres : h i = (embed, some err)) :
    sdkCalls (onInteractionCreate env b i tr).1 =
        sdkCalls tr ++ [.InteractionRespond i initialResponse,
          .FollowupMessageCreate i true
            { Content := "", Embeds := [{ Title := "Error", Description := err.Error }] }] ∧
      (onInteractionCreate env b i tr).2 = .returned := by
  unfold onInteractionCreate
  simp only [hname, hget, Env.call, hresp, hres]
  split <;> rename_i heq <;> simp only [Prod.mk.injEq] at heq <;> obtain ⟨rfl, -⟩ := heq <;>
    simp [sdkCalls_append, sdkCalls, logFollowFailed]

/-- When the handler returns neither embed nor error, onInteractionCreate panics before any
follow-up is sent. -/
theorem onInteractionCreate_nil_nil (env : Env) (b : Bot) (i : InteractionCreate)
    (tr : List Event) (command : String) (h : Handler)
    (hname : i.commandName = some command) (hget : b.commandHandlers.get command = some h)
    (hresp : env.result tr (.InteractionRespond i initialResponse) = none)
    (hres : h i = (none, none)) :
    onInteractionCreate env b i tr =
      (tr ++ [Event.sdk (.InteractionRespond i initialResponse) none, Event.handler h i],
        .panicked .nilPointerDereference) := by
  unfold onInteractionCreate
  simp only [hname, hget, Env.call, hresp, hres]
  simp

theorem OptionMap_acc_get_of_ne (options : List ApplicationCommandInteractionDataOption)
    (acc : CommandOptions) (key : String) (hne : ∀ opt ∈ options, opt.Name ≠ key) :
    GoMap.get (options.foldl (fun optionM opt => GoMap.set optionM opt.Name opt) acc) key =
      GoMap.get acc key := by
  induction options generalizing acc with
  | nil => rfl
  | cons opt rest ih =>
    simp only [List.foldl]
    rw [ih _ (fun o ho => hne o (List.mem_cons_of_mem _ ho)), GoMap.get_set]
    rw [if_neg (fun heq => hne opt (List.mem_cons_self _ _) heq.symm)]

/-- What OptionMap does provide: every option of the list itself, when the names of the list are
distinct, is found under its Name. -/
theorem OptionMap_top_level (options : List ApplicationCommandInteractionDataOption)
    (hnodup : (options.map (fun opt => opt.Name)).Nodup)
    (opt : ApplicationCommandInteractionDataOption) (hmem : opt ∈ options) :
    GoMap.get (OptionMap options) opt.Name = some opt := by
  unfold OptionMap
  generalize ([] : CommandOptions) = acc
  induction options generalizing acc with
  | nil => simp at hmem
  | cons o rest ih =>
    simp only [List.map_cons, List.nodup_cons, List.mem_map, not_exists, not_and] at hnodup
    simp only [List.foldl]
    rcases List.mem_cons.mp hmem with heq | hrest
    · subst heq
      rw [OptionMap_acc_get_of_ne rest _ _ (fun o ho => hnodup.1 o ho), GoMap.get_set]
      simp
    · exact ih hnodup.2 hrest _

/-! ## Properties of the bot layer -/

/-- C1: a call of MustRegisterHandler panics with ErrCommandDuplicate exactly when cmd is already a
key of the handler map or a queued command already has the Name of appCommand; in every other
case it returns normally. -/
theorem MustRegisterHandler_panics_iff (b : Bot) (cmd : String)
    (appCommand : ApplicationCommand) (handler : Handler) :
    (MustRegisterHandler b cmd appCommand handler = .error (.error ErrCommandDuplicate) ↔
        (cmd ∈ b.commandHandlers.keys ∨ ∃ c ∈ b.commands, c.Name = appCommand.Name)) ∧
      (¬ (cmd ∈ b.commandHandlers.keys ∨ ∃ c ∈ b.commands, c.Name = appCommand.Name) →
        ∃ b', MustRegisterHandler b cmd appCommand handler = .ok b') := by
  have hany : (b.commands.any (fun c => c.Name == appCommand.Name)) = true ↔
      ∃ c ∈ b.commands, c.Name = appCommand.Name := by
    simp [List.any_eq_true]
  rw [← GoMap.get_isSome_iff, ← hany]
  unfold MustRegisterHandler
  by_cases h1 : (b.commandHandlers.get cmd).isSome = true
  · simp [h1]
  · by_cases h2 : (b.commands.any (fun c => c.Name == appCommand.Name)) = true
    · simp [h1, h2]
    · simp [h1, h2]

/-- C3: from a Bot returned by New, after any sequence of MustRegisterHandler calls (each either
returning or panicking), no two entries of the queued command list have the same Name. -/
theorem commands_names_distinct (sdkNew : String → Except GoError Session) (opts : Opts)
    (b : Bot) (h : New sdkNew opts = .ok b)
    (calls : List (String × ApplicationCommand × Handler)) :
    (calls.foldl registerCall b).commands.Pairwise (fun c d => c.Name ≠ d.Name) := by
  apply foldl_registerCall_pairwise
  rw [(New_ok_fields sdkNew opts b h).2.2.2.2.1]
  exact List.Pairwise.nil

/-- C4: when the SDK session constructor succeeds, New returns an error matching ErrConfig (and
no Bot) exactly when AppID or Token is empty; otherwise it returns a Bot, with no error, whose
appID, guildID and unregister fields are those of opts and whose handler map and command list
are empty. -/
theorem New_config_error_iff (sdkNew : String → Except GoError Session) (opts : Opts)
    (session : Session) (hsdk : sdkNew ("Bot " ++ opts.Token) = .ok session) :
    ((∃ err, New sdkNew opts = .error err ∧ errorsIs err ErrConfig = true) ↔
        (opts.AppID = "" ∨ opts.Token = "")) ∧
      (¬ (opts.AppID = "" ∨ opts.Token = "") →
        ∃ b, New sdkNew opts = .ok b ∧ b.appID = opts.AppID ∧ b.guildID = opts.GuildID ∧
          b.unregister = opts.UnregisterOnClose ∧ b.commandHandlers = [] ∧ b.commands = []) := by
  unfold New
  by_cases h1 : opts.AppID = ""
  · simp [h1, errorsIs, ErrConfig]
  · by_cases h2 : opts.Token = ""
    · simp [h1, h2, errorsIs, ErrConfig]
    · simp only [if_neg h1, if_neg h2, hsdk]
      simp [h1, h2]

/-- C3, instance: the example bot after registering "hello" twice and then "world". -/
theorem commands_names_distinct_witness :
    New exampleSdkNew exampleOpts = .ok exampleBot ∧
      ([("hello", helloCommand, helloHandler), ("hello", helloCommand, emptyHandler),
          ("world", worldCommand, helloHandler)].foldl registerCall exampleBot).commands.Pairwise
        (fun c d => c.Name ≠ d.Name) :=
  ⟨rfl, commands_names_distinct exampleSdkNew exampleOpts exampleBot rfl _⟩

/-- C4, instance: the options of the example. -/
theorem New_config_error_iff_witness :
    exampleSdkNew ("Bot " ++ exampleOpts.Token) =
        .ok { Token := "Bot token", UserAgent := "", Intents := 0, handlers := [] } ∧
      (((∃ err, New exampleSdkNew exampleOpts = .error err ∧ errorsIs err ErrConfig = true) ↔
          (exampleOpts.AppID = "" ∨ exampleOpts.Token = "")) ∧
        (¬ (exampleOpts.AppID = "" ∨ exampleOpts.Token = "") →
          ∃ b, New exampleSdkNew exampleOpts = .ok b ∧ b.appID = exampleOpts.AppID ∧
            b.guildID = exampleOpts.GuildID ∧ b.unregister = exampleOpts.UnregisterOnClose ∧
            b.commandHandlers = [] ∧ b.commands = [])) :=
  ⟨rfl, New_config_error_iff exampleSdkNew exampleOpts _ rfl⟩

/-- C5: in a run of sequential Start calls on a Bot that is not yet running, session.Open is
invoked once, by the first call; every later call returns nil and invokes nothing, whatever
the first call returned. The first call returns nil when Open succeeds, and an error matching
both ErrSession and the error of Open when Open fails. -/
theorem Start_opens_once (env : Env) (b : Bot) (tr : List Event) (n : Nat)
    (hfresh : b.running = false) :
    (startCalls env (n + 1) b tr).2.1 =
        tr ++ [Event.sdk .sessionOpen (env.result tr .sessionOpen)] ∧
      (startCalls env (n + 1) b tr).2.2 = (Start env b tr).2.2 :: List.replicate n none ∧
      (env.result tr .sessionOpen = none → (Start env b tr).2.2 = none) ∧
      (∀ errStart, env.result tr .sessionOpen = some errStart →
        ∃ err, (Start env b tr).2.2 = some err ∧ errorsIs err ErrSession = true ∧
          errorsIs err errStart = true) := by
  have hstart : Start env b tr =
      ({ b with running := true }, tr ++ [Event.sdk .sessionOpen (env.result tr .sessionOpen)],
        (env.result tr .sessionOpen).map (fun errStart => GoError.join errStart ErrSession)) := by
    unfold Start Env.call
    simp only [hfresh, Bool.false_eq_true, if_false]
    cases env.result tr .sessionOpen <;> rfl
  refine ⟨?_, ?_, ?_, ?_⟩
  · simp only [startCalls, hstart]
    rw [startCalls_running env n _ _ rfl]
  · simp only [startCalls, hstart]
    rw [startCalls_running env n _ _ rfl]
  · intro hopen
    rw [hstart, hopen]
    rfl
  · intro errStart hopen
    rw [hstart, hopen]
    refine ⟨_, rfl, ?_, ?_⟩
    · simp [errorsIs, errorsIs_self, ErrSession]
    · simp [errorsIs, errorsIs_self]

/-- C5, instance: three Start calls on the example bot, Open failing. -/
theorem Start_opens_once_witness :
    exampleBot.running = false ∧
      (startCalls failingEnv (2 + 1) exampleBot []).2.1 =
        [] ++ [Event.sdk .sessionOpen (failingEnv.result [] .sessionOpen)] ∧
      (startCalls failingEnv (2 + 1) exampleBot []).2.2 =
        (Start failingEnv exampleBot []).2.2 :: List.replicate 2 none ∧
      (failingEnv.result [] .sessionOpen = none → (Start failingEnv exampleBot []).2.2 = none) ∧
      (∀ errStart, failingEnv.result [] .sessionOpen = some errStart →
        ∃ err, (Start failingEnv exampleBot []).2.2 = some err ∧
          errorsIs err ErrSession = true ∧ errorsIs err errStart = true) :=
  ⟨rfl, Start_opens_once failingEnv exampleBot [] 2 rfl⟩

/-- C6: the SDK calls made by Close are, when the unregister flag is true, one
ApplicationCommandDelete(appID, guildID, cmd.ID) per entry of registeredCommands in list order,
whatever each delete returns, followed by one session.Close; when the flag is false, one
session.Close and nothing else. -/
theorem Close_sdk_calls (env : Env) (b : Bot) (tr : List Event) :
    sdkCalls (Close env b tr) =
      sdkCalls tr ++
        (if b.unregister = true then
          b.registeredCommands.map
            (fun cmd => SdkCall.ApplicationCommandDelete b.appID b.guildID cmd.ID)
         else []) ++ [SdkCall.sessionClose] := by
  unfold Close Env.call
  cases hu : b.unregister <;>
    simp only [Bool.false_eq_true, if_false, if_true, List.append_nil] <;>
    split <;> rename_i heq <;> simp only [Prod.mk.injEq] at heq <;> obtain ⟨rfl, -⟩ := heq <;>
    simp [sdkCalls_append, sdkCalls, sdkCalls_closeLoop]

/-- C9: onInteractionCreate invokes a handler only directly after a deferred initial response
(InteractionRespond with type InteractionResponseDeferredChannelMessageWithSource) that returned
no error; when that call fails no handler is invoked and the only further SDK call is a
follow-up carrying the error text; when the command name has no registered handler nothing
happens at all: no handler, no SDK call. -/
theorem deferred_response_pattern (env : Env) (b : Bot) (i : InteractionCreate)
    (tr : List Event) :
    ∃ evs, (onInteractionCreate env b i tr).1 = tr ++ evs ∧
      (∀ h j, Event.handler h j ∈ evs →
        env.result tr (.InteractionRespond i initialResponse) = none ∧
          initialResponse.RespType = .InteractionResponseDeferredChannelMessageWithSource ∧
          ∃ post, evs =
            Event.sdk (.InteractionRespond i initialResponse) none :: Event.handler h j :: post) ∧
      (∀ command h errRespond, i.commandName = some command →
        b.commandHandlers.get command = some h →
        env.result tr (.InteractionRespond i initialResponse) = some errRespond →
        (∀ h' j, Event.handler h' j ∉ evs) ∧
          sdkCalls evs = [.InteractionRespond i initialResponse,
            .FollowupMessageCreate i true { Content := errRespond.Error, Embeds := [] }]) ∧
      ((∀ command, i.commandName = some command → b.commandHandlers.get command = none) →
        evs = []) := by
  cases hname : i.commandName with
  | none =>
    refine ⟨[], ?_, ?_, ?_, ?_⟩
    · simp [onInteractionCreate, hname]
    · simp
    · simp
    · simp
  | some command =>
    cases hget : b.commandHandlers.get command with
    | none =>
      refine ⟨[], ?_, ?_, ?_, ?_⟩
      · simp [onInteractionCreate, hname, hget]
      · simp
      · intro command' h errRespond hc hg
        simp only [Option.some.injEq] at hc
        subst hc
        rw [hget] at hg
        exact absurd hg (by simp)
      · simp
    | some h0 =>
      cases hresp : env.result tr (.InteractionRespond i initialResponse) with
      | some e =>
        have htrace : ∃ post, (onInteractionCreate env b i tr).1 =
            tr ++ Event.sdk (.InteractionRespond i initialResponse) (some e) ::
              Event.sdk (.FollowupMessageCreate i true { Content := e.Error, Embeds := [] })
                (env.result (tr ++ [Event.sdk (.InteractionRespond i initialResponse) (some e)])
                  (.FollowupMessageCreate i true { Content := e.Error, Embeds := [] })) :: post ∧
            (∀ h' j, Event.handler h' j ∉ post) ∧ sdkCalls post = [] := by
          unfold onInteractionCreate
          simp only [hname, hget, Env.call, hresp]
          split <;> rename_i heq <;> simp only [Prod.mk.injEq] at heq <;>
            obtain ⟨rfl, -⟩ := heq <;> simp [logFollowFailed, sdkCalls]
        obtain ⟨post, hpost, hnone, hsdk⟩ := htrace
        refine ⟨_, hpost, ?_, ?_, ?_⟩
        · intro h j hmem
          simp only [List.mem_cons, reduceCtorEq, false_or] at hmem
          exact absurd hmem (hnone h j)
        · intro command' h errRespond _ _ herr
          simp only [Option.some.injEq] at herr
          subst herr
          refine ⟨?_, ?_⟩
          · intro h' j hmem
            simp only [List.mem_cons, reduceCtorEq, false_or] at hmem
            exact absurd hmem (hnone h' j)
          · simp [sdkCalls, hsdk]
        · intro hno
          have hnone' := hno command rfl
          rw [hget] at hnone'
          exact absurd hnone' (by simp)
      | none =>
        obtain ⟨post, hpost, hnone⟩ :=
          onInteractionCreate_invokes env b i tr command h0 hname hget hresp
        refine ⟨_, hpost, ?_, ?_, ?_⟩
        · intro h j hmem
          simp only [List.mem_cons, reduceCtorEq, false_or, Event.handler.injEq] at hmem
          rcases hmem with ⟨rfl, rfl⟩ | hmem
          · exact ⟨rfl, rfl, post, rfl⟩
          · exact absurd hmem (hnone h j)
        · intro command' h errRespond _ _ herr
          simp at herr
        · intro hno
          have hnone' := hno command rfl
          rw [hget] at hnone'
          exact absurd hnone' (by simp)

/-- C2, as the code has it: after MustRegisterHandler(cmd, appCommand, handler) returned, and
after any further registration attempts, an interaction whose command name is cmd, the key the
handler was stored under, makes onInteractionCreate invoke that handler, provided the deferred
initial response is sent. -/
theorem registered_handler_invoked (b b' : Bot) (cmd : String)
    (appCommand : ApplicationCommand) (handler : Handler)
    (hreg : MustRegisterHandler b cmd appCommand handler = .ok b')
    (later : List (String × ApplicationCommand × Handler))
    (env : Env) (i : InteractionCreate) (tr : List Event)
    (hname : i.commandName = some cmd)
    (hresp : env.result tr (.InteractionRespond i initialResponse) = none) :
    ∃ post, (onInteractionCreate env (later.foldl registerCall b') i tr).1 =
      tr ++ Event.sdk (.InteractionRespond i initialResponse) none ::
        Event.handler handler i :: post := by
  have hget : b'.commandHandlers.get cmd = some handler := by
    unfold MustRegisterHandler at hreg
    split_ifs at hreg
    simp only [Except.ok.injEq] at hreg
    subst hreg
    simp [GoMap.get_set]
  obtain ⟨post, hpost, -⟩ := onInteractionCreate_invokes env _ i tr cmd handler hname
    (foldl_registerCall_get later b' cmd handler hget) hresp
  exact ⟨post, hpost⟩

/-- C2, instance: the example of the repository, cmd "hello" and a command named "hello". -/
theorem registered_handler_invoked_witness :
    MustRegisterHandler exampleBot "hello" helloCommand helloHandler =
        .ok { exampleBot with
              commandHandlers := [("hello", helloHandler)], commands := [helloCommand] } ∧
      helloInteraction.commandName = some "hello" ∧
      exampleEnv.result [] (.InteractionRespond helloInteraction initialResponse) = none ∧
      ∃ post, (onInteractionCreate exampleEnv
          ([("world", worldCommand, emptyHandler)].foldl registerCall
            { exampleBot with
              commandHandlers := [("hello", helloHandler)], commands := [helloCommand] })
          helloInteraction []).1 =
        [] ++ Event.sdk (.InteractionRespond helloInteraction initialResponse) none ::
          Event.handler helloHandler helloInteraction :: post :=
  ⟨rfl, rfl, rfl,
    registered_handler_invoked exampleBot _ "hello" helloCommand helloHandler rfl
      [("world", worldCommand, emptyHandler)] exampleEnv helloInteraction [] rfl rfl⟩

/-- C2, as stated, fails: a handler registered under cmd "hello" together with a command named
"world" is not invoked by an interaction whose command name is "world"; nothing happens. -/
theorem handler_not_keyed_by_command_name :
    New exampleSdkNew exampleOpts = .ok exampleBot ∧
      ∃ b', MustRegisterHandler exampleBot "hello" worldCommand helloHandler = .ok b' ∧
        worldInteraction.commandName = some worldCommand.Name ∧
        exampleEnv.result [] (.InteractionRespond worldInteraction initialResponse) = none ∧
        onInteractionCreate exampleEnv b' worldInteraction [] = ([], .returned) :=
  ⟨rfl, _, rfl, rfl, rfl, rfl⟩

/-- C8: OptionMap does not descend into nested options. For a subcommand "ban" holding the
option "user", the returned map has the single key "ban" and nothing under "user". -/
theorem OptionMap_drops_nested :
    subcommandOption.Options = [nestedOption] ∧
      GoMap.keys (OptionMap [subcommandOption]) = ["ban"] ∧
      GoMap.get (OptionMap [subcommandOption]) nestedOption.Name = none :=
  ⟨rfl, rfl, rfl⟩

/-- C10: a registered handler that returns neither an embed nor an error makes
onInteractionCreate panic with a nil dereference right after the handler ran: no follow-up
message is sent. -/
theorem nil_result_handler_panics :
    New exampleSdkNew exampleOpts = .ok exampleBot ∧
      ∃ b', MustRegisterHandler exampleBot "hello" helloCommand emptyHandler = .ok b' ∧
        emptyHandler helloInteraction = (none, none) ∧
        onInteractionCreate exampleEnv b' helloInteraction [] =
          ([Event.sdk (.InteractionRespond helloInteraction initialResponse) none,
            Event.handler emptyHandler helloInteraction],
           .panicked .nilPointerDereference) :=
  ⟨rfl, _, rfl, rfl, rfl⟩

end Lipstick
